import Mathlib

/-!
Verification of the Remote Task Execution & Completion Tracking Engine
(pve_manager). The definitions below are a shallow embedding of the
Python source (`run_action.py`, `proxmox_api.py`): pure computations are
translated as Lean functions; the interactions with the hypervisor and
the wall clock are made explicit as environment/trace parameters.
Strings are modelled as `String` where only equality tests occur, and as
`List Char` where the source slices and parses them (snapshot names,
the colon-delimited argument descriptor).
-/

namespace PveManager


/-! ## Snapshot namer (run_action.py, main, snapshot branch lines 274-289)

The source scans the existing snapshot names, keeps those of the form
`"snap"` followed by digits (`snap_name_from_list.startswith('snap') and
snap_name_from_list[4:].isdigit()`), takes the maximum numeric suffix
(0 when none conforms) and produces `f"snap{max+1}"`. -/

/-- Numeric value of an ASCII digit character, as Python's `int` reads it. -/
def digitVal (c : Char) : Nat := c.toNat - 48

/-- Value of a decimal digit string, as Python's `int` on a digit-only string. -/
def digitsToNat (l : List Char) : Nat :=
  l.foldl (fun a c => a * 10 + digitVal c) 0

/-- The four characters of the literal prefix `"snap"`. -/
def snapTag : List Char := ['s', 'n', 'a', 'p']

/-- Embedding of `s.startswith('snap') and s[4:].isdigit()`: the name is
`"snap"` followed by one or more decimal digits. (Python's `isdigit` is
false on the empty string.) -/
def isSnapForm (s : List Char) : Bool :=
  decide (s.take 4 = snapTag) && !(s.drop 4).isEmpty && (s.drop 4).all Char.isDigit

/-- Parse a snapshot name: `some n` when the name conforms to
`"snap" + digits` with numeric suffix `n`, `none` otherwise. -/
def parseSnap (s : List Char) : Option Nat :=
  if isSnapForm s then some (digitsToNat (s.drop 4)) else none

/-- Embedding of the `max_snap_num` accumulation loop: fold over the
existing names, keeping the largest conforming numeric suffix, starting
from 0. -/
def maxSnapNum (names : List (List Char)) : Nat :=
  names.foldl
    (fun m s =>
      match parseSnap s with
      | some num => if num > m then num else m
      | none => m)
    0

/-- Fuel-driven decimal rendering: prepends the digits of `n` to `acc`.
With `fuel ≥ n` this renders all digits of `n` (and renders nothing for
`n = 0`). Embeds the decimal conversion performed by `f"snap{next_snap_num}"`. -/
def natToDigitsAux : Nat → Nat → List Char → List Char
  | 0, _, acc => acc
  | fuel + 1, n, acc =>
    if n = 0 then acc
    else natToDigitsAux fuel (n / 10) (Char.ofNat (48 + n % 10) :: acc)

/-- Decimal representation of a natural number, without leading zeros
(and `"0"` for zero), as Python renders an `int` in an f-string. -/
def natRepr (n : Nat) : List Char :=
  if n = 0 then ['0'] else natToDigitsAux n n []

/-- Embedding of the snapshot-namer fragment of `main`: the next snapshot
name `f"snap{max_snap_num + 1}"` derived from the existing names. -/
def nextSnapName (names : List (List Char)) : List Char :=
  snapTag ++ natRepr (maxSnapNum names + 1)

/-- Modelled from the spec words for comparison (Section 4.5): filter out
the synthetic `"current"` entry, parse the conforming names, take the
maximum (0 if none) and return `"snap" + (max+1)`. -/
def nextNameSpec (names : List (List Char)) : List Char :=
  let remaining := names.filter (fun s => decide (s ≠ ("current".data)))
  let nums := remaining.filterMap parseSnap
  snapTag ++ natRepr (nums.foldl max 0 + 1)

/-! ## Task poller (run_action.py, wait_for_task, lines 133-168)

The polling loop interacts with two external effects: the wall clock
(`time.time() - start_time`, read at the top of each iteration) and the
task-status query (which may raise). A run of the loop is modelled by a
trace: one `PollStep` per iteration, recording the elapsed time observed
at the top of that iteration and the result of the status query (`none`
when the query raised). -/

/-- Fields of a server-reported task-status record that the loop reads:
`status.get('status', '')` and `status.get('exitstatus', '')`. -/
structure TaskStatus where
  status : String
  exitstatus : String
deriving DecidableEq, Repr

/-- One loop iteration's external observations: the elapsed wall-clock
seconds at the top of the iteration, and the status query's result
(`none` when `get_task_status` raised). -/
structure PollStep where
  elapsed : Nat
  result : Option TaskStatus
deriving DecidableEq, Repr

/-- Classification of how `wait_for_task` finished. In the source the
function returns a `bool` (`returnValue` below) and emits one terminal
notification (`notifyMsg` below); this type records which exit path ran. -/
inductive WaitOutcome where
  | timedOut
  | completedOK
  | failed (exitReason : String)
deriving DecidableEq, Repr

/-- What one iteration of the `while True` body does: return with an
outcome, or `time.sleep(seconds)` and go round again. -/
inductive LoopStep where
  | finishTimeout
  | finishTerminal (outcome : WaitOutcome)
  | sleepRetry (seconds : Nat)
deriving DecidableEq, Repr

/-- Embedding of one iteration of the `wait_for_task` loop body:
check `elapsed > timeout` first; then query the status (a raised
exception sleeps 1 second and retries); a `'stopped'` status is terminal
and is classified by `exitstatus == 'OK'`; any other status sleeps
1 second and polls again. -/
def waitIteration (timeout : Nat) (s : PollStep) : LoopStep :=
  if s.elapsed > timeout then .finishTimeout
  else
    match s.result with
    | none => .sleepRetry 1
    | some st =>
      if st.status = "stopped" then
        if st.exitstatus = "OK" then .finishTerminal .completedOK
        else .finishTerminal (.failed st.exitstatus)
      else .sleepRetry 1

/-- Embedding of the whole `wait_for_task` loop over a trace of
iterations: the outcome together with the number of status queries
issued (a timeout return issues none in its final iteration, a terminal
return issues one, and every retried iteration issues one). `none` means
the trace was too short to decide the run. -/
def waitRun (timeout : Nat) : List PollStep → Option (WaitOutcome × Nat)
  | [] => none
  | s :: rest =>
    match waitIteration timeout s with
    | .finishTimeout => some (.timedOut, 0)
    | .finishTerminal o => some (o, 1)
    | .sleepRetry _ => (waitRun timeout rest).map (fun p => (p.1, p.2 + 1))

/-- The boolean that `wait_for_task` returns to its caller: `True` only
on an `'OK'` terminal status, `False` both on a failed task and on a
timeout. -/
def returnValue : WaitOutcome → Bool
  | .completedOK => true
  | .timedOut => false
  | .failed _ => false

/-- The terminal notification message `wait_for_task` emits (all with
title `"Proxmox"`). -/
def notifyMsg (actionName vmName : String) : WaitOutcome → String
  | .timedOut => "⏱️ " ++ actionName ++ " timed out for " ++ vmName
  | .completedOK => "✅ " ++ actionName ++ " completed for " ++ vmName
  | .failed r => "❌ " ++ actionName ++ " failed: " ++ r

/-! ## Requests and run logs

The hypervisor calls a flow issues are recorded symbolically; each
constructor stands for one endpoint template of the source (the
node/type/id path segments are carried by the surrounding flow and
elided here, except for the lifecycle actions where the full endpoint
string is kept because claim C7 is about it). -/

/-- A hypervisor API call issued by a flow. -/
inductive Request where
  | statusCurrent
  | rollbackSnap (snapName : String)
  | taskStatus
  | startReq
  | actionPost (endpoint : String)
deriving DecidableEq, Repr

/-- Observable record of one flow: the hypervisor requests issued in
order, the notifications emitted (title, message), whether the flow
ended in `sys.exit(1)`, and an exception that escaped the flow (if any). -/
structure RunLog where
  requests : List Request
  notes : List (String × String)
  exitFailure : Bool
  raised : Option String
deriving DecidableEq, Repr

/-! ## Snapshot payload (proxmox_api.py, create_snapshot, lines 104-114) -/

/-- Python truthiness of an optional string argument (`if name:`):
true exactly for a present, non-empty string. -/
def pyTruthy : Option String → Bool
  | none => false
  | some s => decide (s ≠ "")

/-- Embedding of the form payload built by `ProxmoxAPI.create_snapshot`:
`snapname` if a name is given, `description` if given, and `vmstate=1`
only when requested AND the target type is `'qemu'` (the source comment:
vmstate only works for VMs, not containers). -/
def createSnapshotPayload (vmtype : String) (name description : Option String)
    (vmstate : Bool) : List (String × String) :=
  (if pyTruthy name then [("snapname", name.getD "")] else []) ++
  (if pyTruthy description then [("description", description.getD "")] else []) ++
  (if vmstate && vmtype == "qemu" then [("vmstate", "1")] else [])

/-! ## Action execution with tracking (run_action.py, lines 170-197) -/

/-- Python's `str.capitalize`: first character upper-cased, the rest
lower-cased. -/
def pyCapitalize (s : String) : String :=
  match s.data with
  | [] => ""
  | c :: rest => ⟨c.toUpper :: rest.map Char.toLower⟩

/-- The `action_labels` table with its `('🔧 Running', action.capitalize())`
default. -/
def actionLabels (action : String) : String × String :=
  if action == "start" then ("▶️ Starting", "Start")
  else if action == "stop" then ("⏹️ Stopping", "Stop")
  else if action == "shutdown" then ("⏻ Shutting down", "Shutdown")
  else if action == "restart" then ("🔄 Restarting", "Restart")
  else if action == "reboot" then ("🔄 Restarting", "Restart")
  else ("🔧 Running", pyCapitalize action)

/-- External effects consumed by `execute_action_with_tracking`: the
response to the initiating POST (`data` field, `""` when absent; an
`error` is an exception raised by `api_request`, which propagates to
`main`), and the polling trace used when a task identifier is present. -/
structure ExecEnv where
  actionResp : Except String String
  poll : List PollStep

/-- Embedding of `execute_action_with_tracking`: map the action to its
endpoint (`restart` travels as `reboot`), POST it, and if the response
carries a task identifier, notify initiation and poll the task to
completion; otherwise emit the single immediate notification. -/
def executeActionWithTracking (action node vmtype vmid name : String)
    (env : ExecEnv) : Option RunLog :=
  let lbl := actionLabels action
  let endpointAction := if action == "restart" then "reboot" else action
  let endpoint :=
    "/nodes/" ++ node ++ "/" ++ vmtype ++ "/" ++ vmid ++ "/status/" ++ endpointAction
  match env.actionResp with
  | .error e => some ⟨[.actionPost endpoint], [], false, some e⟩
  | .ok upid =>
    if upid ≠ "" then
      match waitRun 120 env.poll with
      | none => none
      | some (outcome, n) =>
        some ⟨[.actionPost endpoint] ++ List.replicate n .taskStatus,
              [("Proxmox", lbl.1 ++ " " ++ name ++ "..."),
               ("Proxmox", notifyMsg lbl.2 name outcome)], false, none⟩
    else
      some ⟨[.actionPost endpoint],
            [("Proxmox", lbl.1 ++ " " ++ name ++ "...")], false, none⟩

/-! ## Argument validation in main (run_action.py, lines 199-225)

The colon-delimited descriptor is parsed before any hypervisor object is
used: `arg.split(':::', 1)` separates an optional description, the main
part is split on `':'`, and fewer than 5 fields is rejected with an
error notification before any network call. The rest of `main` is
modelled as an arbitrary continuation over the parsed fields, so the
fail-fast theorems hold whatever the remainder of `main` does. -/

/-- Leftmost split of a character list at the first occurrence of
`":::"`, as Python's `arg.split(':::', 1)`: `none` when `":::"` does not
occur. -/
def splitTriple : List Char → Option (List Char × List Char)
  | ':' :: ':' :: ':' :: rest => some ([], rest)
  | c :: rest => (splitTriple rest).map (fun p => (c :: p.1, p.2))
  | [] => none

/-- Python's `s.split(':')` on a character list: splits at every
separator, `[""]` for the empty string. -/
def splitOnChar (sep : Char) : List Char → List (List Char)
  | [] => [[]]
  | c :: rest =>
    if c = sep then [] :: splitOnChar sep rest
    else
      match splitOnChar sep rest with
      | r :: rs => (c :: r) :: rs
      | [] => [[c]]

/-- The part of the argument before `":::"` (the whole argument when no
`":::"` occurs). -/
def mainPartOf (arg : List Char) : List Char :=
  match splitTriple arg with
  | some p => p.1
  | none => arg

/-- The description after `":::"`, with an empty description normalised
to `none` as in the source. -/
def descOf (arg : List Char) : Option (List Char) :=
  match splitTriple arg with
  | some p => if p.2 = [] then none else some p.2
  | none => none

/-- The fields `main` extracts on a successful parse:
`action:node:type:vmid:name` (the name rejoins any further colons) plus
the optional description. -/
structure MainParsed where
  action : List Char
  node : List Char
  vmtype : List Char
  vmid : List Char
  name : List Char
  description : Option (List Char)

/-- Embedding of the entry and validation prefix of `main`: the missing /
placeholder argument check, the `":::"` description split, the colon
split and the minimum-field check. The remainder of `main` (the action
dispatch) is the continuation `k`. -/
def mainRun (arg? : Option (List Char)) (k : MainParsed → Option RunLog) :
    Option RunLog :=
  match arg? with
  | none => some ⟨[], [("Proxmox", "⚠️ No action specified")], false, none⟩
  | some arg =>
    if arg = [] ∨ arg = "{query}".data ∨ arg = "(null)".data then
      some ⟨[], [("Proxmox", "⚠️ No action specified")], false, none⟩
    else
      let parts := splitOnChar ':' (mainPartOf arg)
      if parts.length < 5 then
        some ⟨[], [("Proxmox Error",
                    "❌ Invalid format: " ++ (⟨arg.take 30⟩ : String))], false, none⟩
      else
        k ⟨parts.getD 0 [], parts.getD 1 [], parts.getD 2 [], parts.getD 3 [],
           List.intercalate [':'] (parts.drop 4), descOf arg⟩

/-! ## Rollback sequencer (run_action.py, rollback_exec branch, lines 324-373)

The branch takes the snapshot name, the captured `was_running` flag and
the snapshot's `has_vmstate` flag (parsed from the `":::"`-separated
argument), freshly queries the current running state, dispatches the
rollback, polls it, and conditionally dispatches and polls a follow-up
start. Every exception in the branch is caught by its `except` handler,
which notifies `"❌ Rollback Failed"` and exits with status 1. -/

/-- Python's `str(e)[:50]` truncation of an error message. -/
def strTake (s : String) (n : Nat) : String := ⟨s.data.take n⟩

/-- External effects consumed by the rollback branch: the fresh status
query (`data.status` field, absent modelled as `none`, defaulted to
`'unknown'` as in the source; `error` is a raised exception), the
rollback dispatch response (`data` field, defaulted to `""`), its polling
trace, and the same pair for the conditional start. -/
structure RollbackEnv where
  statusResp : Except String (Option String)
  rollbackResp : Except String (Option String)
  rollbackPoll : List PollStep
  startResp : Except String (Option String)
  startPoll : List PollStep

/-- Embedding of the `rollback_exec` branch of `main`. The nested start
dispatch happens exactly when the rollback task polled successfully AND
(`was_running` OR the freshly observed status is `'running'`) AND the
snapshot has no memory state; `none` means a polling trace in the
environment was too short to decide the run. -/
def rollbackExec (name snapName : String) (wasRunning hasVmstate : Bool)
    (env : RollbackEnv) : Option RunLog :=
  match env.statusResp with
  | .error e =>
    some ⟨[.statusCurrent], [("❌ Rollback Failed", strTake e 50)], true, none⟩
  | .ok statusField =>
    let currentStatus := statusField.getD "unknown"
    let currentlyRunning := currentStatus == "running"
    let rollingNote : String × String :=
      ("Proxmox", "⏪ Rolling back " ++ name ++ " to '" ++ snapName ++ "'...")
    match env.rollbackResp with
    | .error e =>
      some ⟨[.statusCurrent, .rollbackSnap snapName],
            [rollingNote, ("❌ Rollback Failed", strTake e 50)], true, none⟩
    | .ok dataField =>
      let upid := dataField.getD ""
      if upid ≠ "" then
        match waitRun 120 env.rollbackPoll with
        | none => none
        | some (outcome, n) =>
          let waitNote : String × String :=
            ("Proxmox", notifyMsg ("Rollback to '" ++ snapName ++ "'") name outcome)
          let success := returnValue outcome
          if success && (wasRunning || currentlyRunning) && !hasVmstate then
            let startNote : String × String :=
              ("Proxmox", "▶️ Starting " ++ name ++ " after rollback...")
            match env.startResp with
            | .error e =>
              some ⟨[.statusCurrent, .rollbackSnap snapName]
                      ++ List.replicate n .taskStatus ++ [.startReq],
                    [rollingNote, waitNote, startNote,
                     ("❌ Rollback Failed", strTake e 50)], true, none⟩
            | .ok startData =>
              let startUpid := startData.getD ""
              if startUpid ≠ "" then
                match waitRun 120 env.startPoll with
                | none => none
                | some (so, m) =>
                  some ⟨[.statusCurrent, .rollbackSnap snapName]
                          ++ List.replicate n .taskStatus ++ [.startReq]
                          ++ List.replicate m .taskStatus,
                        [rollingNote, waitNote, startNote,
                         ("Proxmox", notifyMsg "Start after rollback" name so)],
                        false, none⟩
              else
                some ⟨[.statusCurrent, .rollbackSnap snapName]
                        ++ List.replicate n .taskStatus ++ [.startReq],
                      [rollingNote, waitNote, startNote], false, none⟩
          else
            some ⟨[.statusCurrent, .rollbackSnap snapName]
                    ++ List.replicate n .taskStatus,
                  [rollingNote, waitNote], false, none⟩
      else
        some ⟨[.statusCurrent, .rollbackSnap snapName],
              [rollingNote,
               ("Proxmox", "⏪ Rollback to '" ++ snapName ++ "' initiated for "
                 ++ name)], false, none⟩

/-! Lemmas about decimal rendering. -/

theorem natToDigitsAux_append (fuel : Nat) :
    ∀ n acc, natToDigitsAux fuel n acc = natToDigitsAux fuel n [] ++ acc := by
  induction fuel with
  | zero => intro n acc; simp [natToDigitsAux]
  | succ fuel ih =>
    intro n acc
    by_cases h : n = 0
    · simp [natToDigitsAux, h]
    · simp only [natToDigitsAux, h, if_false]
      rw [ih (n / 10) (Char.ofNat (48 + n % 10) :: acc),
        ih (n / 10) (Char.ofNat (48 + n % 10) :: [])]
      simp

theorem digitVal_ofNat (m : Nat) (hm : m < 10) :
    digitVal (Char.ofNat (48 + m)) = m := by
  interval_cases m <;> decide

theorem isDigit_ofNat (m : Nat) (hm : m < 10) :
    (Char.ofNat (48 + m)).isDigit = true := by
  interval_cases m <;> decide

theorem digitsToNat_append_singleton (l : List Char) (c : Char) :
    digitsToNat (l ++ [c]) = 10 * digitsToNat l + digitVal c := by
  simp [digitsToNat, List.foldl_append, Nat.mul_comm]

theorem digitsToNat_natToDigitsAux (fuel : Nat) :
    ∀ n, n ≤ fuel → digitsToNat (natToDigitsAux fuel n []) = n := by
  induction fuel with
  | zero =>
    intro n hn
    interval_cases n
    simp [natToDigitsAux, digitsToNat]
  | succ fuel ih =>
    intro n hn
    by_cases h : n = 0
    · simp [natToDigitsAux, h, digitsToNat]
    · have hdiv : n / 10 ≤ fuel := by
        have : n / 10 < n := Nat.div_lt_self (Nat.pos_of_ne_zero h) (by norm_num)
        omega
      simp only [natToDigitsAux, h, if_false]
      rw [natToDigitsAux_append, digitsToNat_append_singleton, ih _ hdiv,
        digitVal_ofNat _ (Nat.mod_lt n (by norm_num))]
      omega

theorem natToDigitsAux_all_digits (fuel : Nat) :
    ∀ n, (natToDigitsAux fuel n []).all Char.isDigit = true := by
  induction fuel with
  | zero => intro n; simp [natToDigitsAux]
  | succ fuel ih =>
    intro n
    by_cases h : n = 0
    · simp [natToDigitsAux, h]
    · simp only [natToDigitsAux, h, if_false]
      rw [natToDigitsAux_append]
      simp only [List.all_append, ih (n / 10), Bool.true_and]
      simp [isDigit_ofNat _ (Nat.mod_lt n (by norm_num))]

theorem natToDigitsAux_ne_nil (fuel n : Nat) (h0 : 0 < n) (hn : n ≤ fuel) :
    natToDigitsAux fuel n [] ≠ [] := by
  cases fuel with
  | zero => omega
  | succ fuel =>
    have h : ¬ n = 0 := by omega
    simp only [natToDigitsAux, h, if_false]
    rw [natToDigitsAux_append]
    simp

theorem natRepr_all_digits (n : Nat) : (natRepr n).all Char.isDigit = true := by
  by_cases h : n = 0
  · simp [natRepr, h]
  · simp [natRepr, h, natToDigitsAux_all_digits]

theorem natRepr_ne_nil (n : Nat) : natRepr n ≠ [] := by
  by_cases h : n = 0
  · simp [natRepr, h]
  · simp [natRepr, h, natToDigitsAux_ne_nil n n (Nat.pos_of_ne_zero h) le_rfl]

theorem digitsToNat_natRepr (n : Nat) : digitsToNat (natRepr n) = n := by
  by_cases h : n = 0
  · simp [natRepr, h, digitsToNat, digitVal]
  · simp [natRepr, h, digitsToNat_natToDigitsAux n n le_rfl]

/-! The produced name is itself a conforming name whose suffix parses back. -/

theorem parseSnap_nextSnapName (names : List (List Char)) :
    parseSnap (nextSnapName names) = some (maxSnapNum names + 1) := by
  have htake : (snapTag ++ natRepr (maxSnapNum names + 1)).take 4 = snapTag :=
    List.take_left snapTag (natRepr (maxSnapNum names + 1))
  have hdrop : (snapTag ++ natRepr (maxSnapNum names + 1)).drop 4
      = natRepr (maxSnapNum names + 1) :=
    List.drop_left snapTag (natRepr (maxSnapNum names + 1))
  have hform : isSnapForm (snapTag ++ natRepr (maxSnapNum names + 1)) = true := by
    simp [isSnapForm, htake, hdrop, natRepr_all_digits,
      List.isEmpty_iff, natRepr_ne_nil]
  rw [nextSnapName, parseSnap]
  simp [hform, hdrop, digitsToNat_natRepr]

/-! Every conforming existing name parses to a value bounded by the fold. -/

theorem maxSnapNum_le_step (m : Nat) (s : List Char) :
    m ≤ (match parseSnap s with
          | some num => if num > m then num else m
          | none => m) := by
  cases parseSnap s with
  | none => simp
  | some num => simp only; split <;> omega

theorem maxSnapNum_foldl_mono (names : List (List Char)) :
    ∀ m : Nat, m ≤ names.foldl
      (fun m s =>
        match parseSnap s with
        | some num => if num > m then num else m
        | none => m) m := by
  induction names with
  | nil => intro m; simp
  | cons s rest ih =>
    intro m
    calc m ≤ _ := maxSnapNum_le_step m s
    _ ≤ _ := ih _

theorem parseSnap_le_maxSnapNum_aux (names : List (List Char)) :
    ∀ m : Nat, ∀ s ∈ names, ∀ v, parseSnap s = some v →
      v ≤ names.foldl
        (fun m s =>
          match parseSnap s with
          | some num => if num > m then num else m
          | none => m) m := by
  induction names with
  | nil => intro m s hs; simp at hs
  | cons t rest ih =>
    intro m s hs v hv
    rcases List.mem_cons.mp hs with h | h
    · subst h
      have hstep : v ≤ (match parseSnap s with
          | some num => if num > m then num else m
          | none => m) := by
        rw [hv]; simp only; split <;> omega
      calc v ≤ _ := hstep
      _ ≤ _ := maxSnapNum_foldl_mono rest _
    · exact ih _ s h v hv

theorem parseSnap_le_maxSnapNum (names : List (List Char)) (s : List Char)
    (hs : s ∈ names) (v : Nat) (hv : parseSnap s = some v) :
    v ≤ maxSnapNum names :=
  parseSnap_le_maxSnapNum_aux names 0 s hs v hv

theorem maxSnapNum_eq_specFold (names : List (List Char)) :
    ∀ m : Nat,
      names.foldl
        (fun m s =>
          match parseSnap s with
          | some num => if num > m then num else m
          | none => m) m
      = ((names.filter (fun s => decide (s ≠ ("current".data)))).filterMap
          parseSnap).foldl max m := by
  induction names with
  | nil => intro m; simp
  | cons s rest ih =>
    intro m
    by_cases hc : s = "current".data
    · subst hc
      have hp : parseSnap ("current".data) = none := by decide
      simp [hp, ih]
    · cases hps : parseSnap s with
      | none => simp [hc, hps, ih]
      | some v =>
        have hmax : (if v > m then v else m) = max m v := by split <;> omega
        simp [hc, hps, hmax, ih]

theorem maxSnapNum_all_none_aux (names : List (List Char))
    (h : ∀ s ∈ names, parseSnap s = none) :
    ∀ m : Nat,
      names.foldl
        (fun m s =>
          match parseSnap s with
          | some num => if num > m then num else m
          | none => m) m = m := by
  induction names with
  | nil => intro m; simp
  | cons s rest ih =>
    intro m
    have hs : parseSnap s = none := h s (List.mem_cons_self s rest)
    simp only [List.foldl_cons, hs]
    exact ih (fun t ht => h t (List.mem_cons_of_mem s ht)) m

/-- Claim C4: the snapshot namer behaves as the spec describes — it agrees
with the spec-side derivation `nextNameSpec` (filter out `"current"`, take
the maximum numeric suffix of names of the exact form `"snap" + digits`,
0 if none, return `"snap" + (max+1)`) on every input; on the particular
name set `{snap1, snap2, snap7, current, custom}` it returns `"snap8"`;
and when no conforming name exists it returns `"snap1"` (it never fails:
`nextSnapName` is a total function). -/
theorem snapshot_namer_matches_spec :
    (∀ names, nextSnapName names = nextNameSpec names) ∧
    nextSnapName ["snap1".data, "snap2".data, "snap7".data, "current".data,
      "custom".data] = "snap8".data ∧
    (∀ names, (∀ s ∈ names, parseSnap s = none) →
      nextSnapName names = "snap1".data) := by
  refine ⟨?_, by decide, ?_⟩
  · intro names
    simp only [nextSnapName, nextNameSpec, maxSnapNum, maxSnapNum_eq_specFold]
  · intro names h
    have hmax : maxSnapNum names = 0 := maxSnapNum_all_none_aux names h 0
    rw [nextSnapName, hmax]
    decide

/-- Witness for claim C4: a name set with no conforming name (the synthetic
`"current"` entry only) yields `"snap1"`. -/
theorem snapshot_namer_matches_spec_witness :
    nextSnapName ["current".data] = "snap1".data :=
  snapshot_namer_matches_spec.2.2 ["current".data] (by decide)

/-- Claim C9: the name produced by the snapshot namer is fresh — it differs
from every name in the input list, because it is itself a conforming name
whose numeric suffix `max+1` strictly exceeds the suffix of every
conforming existing name, and being conforming it cannot equal any
non-conforming name. -/
theorem snapshot_name_fresh (names : List (List Char)) (s : List Char)
    (hs : s ∈ names) : nextSnapName names ≠ s := by
  intro he
  have h1 : parseSnap s = some (maxSnapNum names + 1) :=
    he ▸ parseSnap_nextSnapName names
  have h2 := parseSnap_le_maxSnapNum names s hs _ h1
  omega

/-- Witness for claim C9: on the set `{snap3, current}` the produced name
differs from the member `snap3`. -/
theorem snapshot_name_fresh_witness :
    nextSnapName ["snap3".data, "current".data] ≠ "snap3".data :=
  snapshot_name_fresh ["snap3".data, "current".data] "snap3".data (by decide)

/-- Claim C3: within the timeout budget, a polled status record is
terminal exactly when its status string is `"stopped"` (any other value
keeps polling, with the iteration count advancing); on a terminal record
the poller reports success exactly when the exit reason is `"OK"`, and
any other exit reason yields a failure carrying that literal value; the
boolean reported to the caller is `true` for the `"OK"` case and `false`
for the failure case. -/
theorem poller_terminal_classification (timeout : Nat) (st : TaskStatus)
    (s : PollStep) (rest : List PollStep)
    (hel : s.elapsed ≤ timeout) (hres : s.result = some st) :
    (st.status ≠ "stopped" →
      waitRun timeout (s :: rest)
        = (waitRun timeout rest).map (fun p => (p.1, p.2 + 1))) ∧
    (st.status = "stopped" → st.exitstatus = "OK" →
      waitRun timeout (s :: rest) = some (WaitOutcome.completedOK, 1)) ∧
    (st.status = "stopped" → st.exitstatus ≠ "OK" →
      waitRun timeout (s :: rest) = some (WaitOutcome.failed st.exitstatus, 1)) ∧
    returnValue WaitOutcome.completedOK = true ∧
    (∀ r, returnValue (WaitOutcome.failed r) = false) := by
  have hnot : ¬ (s.elapsed > timeout) := by omega
  refine ⟨?_, ?_, ?_, rfl, fun r => rfl⟩ <;>
    intros <;> simp [waitRun, waitIteration, hres, hnot, *]

/-- Witness for claim C3: a concrete `stopped/OK` record at elapsed time
0 terminates the poll with success after one query. -/
theorem poller_terminal_classification_witness :
    waitRun 120 [⟨0, some ⟨"stopped", "OK"⟩⟩] = some (WaitOutcome.completedOK, 1) :=
  (poller_terminal_classification 120 ⟨"stopped", "OK"⟩
    ⟨0, some ⟨"stopped", "OK"⟩⟩ [] (by decide) rfl).2.1 rfl rfl

/-- Claim C6: a failed status query (a raised exception, `result = none`)
inside the timeout budget does not abort the loop and does not change the
reported outcome: the iteration sleeps the same 1 second as an ordinary
non-terminal iteration, and the run continues on the remaining trace with
the same outcome (only the query count advances). -/
theorem poller_transient_error_resilience (timeout : Nat) (s : PollStep)
    (rest : List PollStep) (hres : s.result = none) (hel : s.elapsed ≤ timeout) :
    waitIteration timeout s = LoopStep.sleepRetry 1 ∧
    (∀ st : TaskStatus, st.status ≠ "stopped" →
      waitIteration timeout ⟨s.elapsed, some st⟩ = LoopStep.sleepRetry 1) ∧
    waitRun timeout (s :: rest)
      = (waitRun timeout rest).map (fun p => (p.1, p.2 + 1)) ∧
    (waitRun timeout (s :: rest)).map Prod.fst
      = (waitRun timeout rest).map Prod.fst := by
  have hnot : ¬ (s.elapsed > timeout) := by omega
  have h1 : waitIteration timeout s = LoopStep.sleepRetry 1 := by
    simp [waitIteration, hres, hnot]
  refine ⟨h1, ?_, ?_, ?_⟩
  · intro st hst
    simp [waitIteration, hnot, hst]
  · simp [waitRun, h1]
  · simp only [waitRun, h1]
    cases waitRun timeout rest <;> simp

/-- Witness for claim C6: a concrete trace whose first query raises and
whose second query observes `stopped/OK` yields the same outcome as the
trace without the failed query. -/
theorem poller_transient_error_resilience_witness :
    waitRun 120 [⟨0, none⟩, ⟨1, some ⟨"stopped", "OK"⟩⟩]
      = (waitRun 120 [⟨1, some ⟨"stopped", "OK"⟩⟩]).map (fun p => (p.1, p.2 + 1)) :=
  (poller_transient_error_resilience 120 ⟨0, none⟩ [⟨1, some ⟨"stopped", "OK"⟩⟩]
    rfl (by decide)).2.2.1

/-- Claim C2 counterexample: the value `wait_for_task` returns to its
caller is `False` both on a timeout and on a failed task — at the return
value the two outcomes are NOT distinguishable by the caller, contrary to
the claim. (The two runs below end in timeout and in failure
respectively, and the returned booleans coincide.) -/
theorem poller_timeout_conflated_counterexample :
    waitRun 120 [⟨121, none⟩] = some (WaitOutcome.timedOut, 0) ∧
    waitRun 120 [⟨5, some ⟨"stopped", "ERROR"⟩⟩]
      = some (WaitOutcome.failed "ERROR", 1) ∧
    returnValue WaitOutcome.timedOut = returnValue (WaitOutcome.failed "ERROR") := by
  refine ⟨by decide, by decide, rfl⟩

/-- Claim C2 (amended): if the elapsed wall-clock time exceeds
`timeout` at the top of an iteration before a terminal status was
observed, the poller returns the timeout outcome without issuing another
status query; that outcome carries the same boolean `False` to the caller
as a failed task does (the return value conflates them), and the two are
distinguished only in the notification emitted (the timed-out message
differs from every failure message). -/
theorem poller_timeout_outcome :
    (∀ (timeout : Nat) (s : PollStep) (rest : List PollStep),
      s.elapsed > timeout →
        waitRun timeout (s :: rest) = some (WaitOutcome.timedOut, 0)) ∧
    (returnValue WaitOutcome.timedOut = false ∧
      ∀ r, returnValue (WaitOutcome.failed r) = false) ∧
    (∀ (actionName vmName r : String),
      notifyMsg actionName vmName WaitOutcome.timedOut
        ≠ notifyMsg actionName vmName (WaitOutcome.failed r)) := by
  refine ⟨?_, ⟨rfl, fun r => rfl⟩, ?_⟩
  · intro timeout s rest h
    simp [waitRun, waitIteration, h]
  · intro actionName vmName r h
    have hd := congrArg (fun s => s.data.head?) h
    simp [notifyMsg, String.data_append] at hd

/-- Witness for claim C2 (amended): a concrete iteration at elapsed time
3 with budget 2 returns the timeout outcome. -/
theorem poller_timeout_outcome_witness :
    waitRun 2 [⟨3, none⟩] = some (WaitOutcome.timedOut, 0) :=
  poller_timeout_outcome.1 2 ⟨3, none⟩ [] (by decide)

/-- Claim C5: the memory-state field is part of the snapshot payload iff
the target is a VM (`qemu`) and memory state was requested; for a
container the flag is silently dropped — the payload with
`includeMemoryState = true` is the very payload built without it, and no
`vmstate` key ever appears in it (the dispatch proceeds, it does not
error: `createSnapshotPayload` is total). -/
theorem create_snapshot_vmstate_condition :
    (∀ (vmtype : String) (name description : Option String) (vmstate : Bool),
      ("vmstate", "1") ∈ createSnapshotPayload vmtype name description vmstate
        ↔ (vmstate = true ∧ vmtype = "qemu")) ∧
    (∀ name description : Option String,
      createSnapshotPayload "lxc" name description true
        = createSnapshotPayload "lxc" name description false) ∧
    (∀ (name description : Option String) (v : String),
      ("vmstate", v) ∉ createSnapshotPayload "lxc" name description true) := by
  have hks : ("vmstate" : String) = "snapname" ↔ False := by simp
  have hkd : ("vmstate" : String) = "description" ↔ False := by simp
  refine ⟨?_, ?_, ?_⟩
  · intro vmtype name description vmstate
    by_cases h1 : pyTruthy name <;> by_cases h2 : pyTruthy description <;>
      by_cases h3 : (vmstate && vmtype == "qemu") = true <;>
      simp_all [createSnapshotPayload, Prod.ext_iff, Bool.and_eq_true, beq_iff_eq]
  · intro name description
    have h : (true && ("lxc" : String) == "qemu") = false := by decide
    have h' : (false && ("lxc" : String) == "qemu") = false := by decide
    simp [createSnapshotPayload, h, h']
  · intro name description v
    have h : (true && ("lxc" : String) == "qemu") = false := by decide
    by_cases h1 : pyTruthy name <;> by_cases h2 : pyTruthy description <;>
      simp_all [createSnapshotPayload, Prod.ext_iff]

/-- Claim C7: when the dispatch response carries no task identifier
(empty `data` field), the action is treated as already complete — the
flow issues exactly the one initiating POST (no task-status query is
ever issued) and reports a single immediate notification. -/
theorem immediate_result_no_polling (action node vmtype vmid name : String)
    (env : ExecEnv) (hresp : env.actionResp = .ok "") :
    executeActionWithTracking action node vmtype vmid name env
      = some ⟨[.actionPost ("/nodes/" ++ node ++ "/" ++ vmtype ++ "/" ++ vmid
                ++ "/status/" ++ (if action == "restart" then "reboot" else action))],
              [("Proxmox", (actionLabels action).1 ++ " " ++ name ++ "...")],
              false, none⟩ ∧
    (∀ log, executeActionWithTracking action node vmtype vmid name env = some log →
      Request.taskStatus ∉ log.requests) := by
  have h1 : executeActionWithTracking action node vmtype vmid name env
      = some ⟨[.actionPost ("/nodes/" ++ node ++ "/" ++ vmtype ++ "/" ++ vmid
                ++ "/status/" ++ (if action == "restart" then "reboot" else action))],
              [("Proxmox", (actionLabels action).1 ++ " " ++ name ++ "...")],
              false, none⟩ := by
    simp [executeActionWithTracking, hresp]
  refine ⟨h1, ?_⟩
  intro log hlog
  rw [h1] at hlog
  cases hlog
  simp

/-- Witness for claim C7: a concrete `start` dispatch whose response has
an empty `data` field yields the immediate log with no status query. -/
theorem immediate_result_no_polling_witness :
    executeActionWithTracking "start" "pve" "qemu" "100" "vm" ⟨.ok "", []⟩
      = some ⟨[.actionPost "/nodes/pve/qemu/100/status/start"],
              [("Proxmox", "▶️ Starting vm...")], false, none⟩ := by
  have h := (immediate_result_no_polling "start" "pve" "qemu" "100" "vm"
    ⟨.ok "", []⟩ rfl).1
  rw [h]; decide

/-- Claim C8: an argument whose colon-delimited main part has fewer than
5 fields makes `main` fail fast with the validation notification: the
result is the error log with an empty request list, for EVERY
continuation `k` — so no dispatch and no status query is ever issued. -/
theorem malformed_descriptor_fails_fast (arg : List Char)
    (k : MainParsed → Option RunLog)
    (hne : ¬ (arg = [] ∨ arg = "{query}".data ∨ arg = "(null)".data))
    (hlen : (splitOnChar ':' (mainPartOf arg)).length < 5) :
    mainRun (some arg) k
      = some ⟨[], [("Proxmox Error",
                    "❌ Invalid format: " ++ (⟨arg.take 30⟩ : String))],
              false, none⟩ := by
  simp [mainRun, hne, hlen]

/-- Witness for claim C8: the two-field argument `start:pve` is rejected
with the validation notification and an empty request list, with a
continuation that would return no log at all. -/
theorem malformed_descriptor_fails_fast_witness :
    mainRun (some ("start:pve".data)) (fun _ => none)
      = some ⟨[], [("Proxmox Error", "❌ Invalid format: start:pve")],
              false, none⟩ := by
  have h := malformed_descriptor_fails_fast ("start:pve".data) (fun _ => none)
    (by decide) (by decide)
  rw [h]; decide

theorem restart_cond_iff (outcome : WaitOutcome) (wasRunning hasVmstate : Bool)
    (cs : String) :
    (returnValue outcome && (wasRunning || cs == "running") && !hasVmstate) = true
      ↔ (outcome = WaitOutcome.completedOK ∧ (wasRunning = true ∨ cs = "running")
          ∧ hasVmstate = false) := by
  cases outcome <;>
    simp [returnValue, Bool.and_eq_true, Bool.or_eq_true, beq_iff_eq,
      Bool.not_eq_true']

/-- Claim C1: in the tracked rollback path (a rollback task identifier
was returned and its poll completed), the follow-up start request is
dispatched exactly when the rollback outcome was success AND
(`was_running` OR the freshly observed status is `'running'`) AND the
snapshot has no memory state; moreover with a memory-state snapshot no
start is ever dispatched on ANY completed run of the branch (so in
particular a failed or timed-out rollback never dispatches a start). -/
theorem rollback_restart_condition :
    (∀ (name snapName : String) (wasRunning hasVmstate : Bool)
        (env : RollbackEnv) (statusField : Option String)
        (dataField : Option String) (outcome : WaitOutcome) (n : Nat)
        (log : RunLog),
      env.statusResp = .ok statusField →
      env.rollbackResp = .ok dataField →
      dataField.getD "" ≠ "" →
      waitRun 120 env.rollbackPoll = some (outcome, n) →
      rollbackExec name snapName wasRunning hasVmstate env = some log →
      (Request.startReq ∈ log.requests ↔
        (outcome = WaitOutcome.completedOK ∧
         (wasRunning = true ∨ statusField.getD "unknown" = "running") ∧
         hasVmstate = false))) ∧
    (∀ (name snapName : String) (wasRunning : Bool) (env : RollbackEnv)
        (log : RunLog),
      rollbackExec name snapName wasRunning true env = some log →
      Request.startReq ∉ log.requests) := by
  constructor
  · intro name snapName wasRunning hasVmstate env statusField dataField outcome n
      log hst hrb hupid hwait hrun
    rw [← restart_cond_iff outcome wasRunning hasVmstate (statusField.getD "unknown")]
    simp only [rollbackExec, hst, hrb, hwait, if_pos hupid] at hrun
    split at hrun
    case isTrue hcond =>
      split at hrun
      · cases hrun
        simp [hcond, List.mem_append, List.mem_replicate]
      · split at hrun
        · split at hrun
          · cases hrun
          · cases hrun
            simp [hcond, List.mem_append, List.mem_replicate]
        · cases hrun
          simp [hcond, List.mem_append, List.mem_replicate]
    case isFalse hcond =>
      cases hrun
      simp [hcond, List.mem_append, List.mem_replicate]
  · intro name snapName wasRunning env log hrun
    simp only [rollbackExec] at hrun
    split at hrun
    · cases hrun; simp
    · split at hrun
      · cases hrun; simp
      · split at hrun
        · split at hrun
          · cases hrun
          · split at hrun
            case isTrue hcond => simp at hcond
            case isFalse hcond =>
              cases hrun
              simp [List.mem_append, List.mem_replicate]
        · cases hrun; simp

/-- Witness for claim C1: a concrete run (VM currently running, snapshot
without memory state, rollback task polled to `stopped/OK`) dispatches
the follow-up start. -/
theorem rollback_restart_condition_witness :
    Request.startReq ∈
      ((rollbackExec "vm" "snap1" false false
          ⟨.ok (some "running"), .ok (some "UPID:1"),
           [⟨0, some ⟨"stopped", "OK"⟩⟩], .ok (some "UPID:2"),
           [⟨1, some ⟨"stopped", "OK"⟩⟩]⟩).getD ⟨[], [], false, none⟩).requests := by
  have h := rollback_restart_condition.1 "vm" "snap1" false false
    ⟨.ok (some "running"), .ok (some "UPID:1"),
     [⟨0, some ⟨"stopped", "OK"⟩⟩], .ok (some "UPID:2"),
     [⟨1, some ⟨"stopped", "OK"⟩⟩]⟩
    (some "running") (some "UPID:1") WaitOutcome.completedOK 1
    ((rollbackExec "vm" "snap1" false false
        ⟨.ok (some "running"), .ok (some "UPID:1"),
         [⟨0, some ⟨"stopped", "OK"⟩⟩], .ok (some "UPID:2"),
         [⟨1, some ⟨"stopped", "OK"⟩⟩]⟩).getD ⟨[], [], false, none⟩)
    rfl rfl (by decide) (by decide) rfl
  exact h.mpr ⟨rfl, Or.inr rfl, rfl⟩

/-- Claim C10: every completed run of the rollback branch issues the
fresh running-state query as its FIRST hypervisor call (so it precedes
any rollback dispatch), and when that query raises, the branch terminates
as a reported failure with exit status 1 having issued only that one
read-only query — the rollback request is never dispatched. -/
theorem rollback_status_query_first :
    (∀ (name snapName : String) (wasRunning hasVmstate : Bool)
        (env : RollbackEnv) (log : RunLog),
      rollbackExec name snapName wasRunning hasVmstate env = some log →
      ∃ rest, log.requests = Request.statusCurrent :: rest) ∧
    (∀ (name snapName : String) (wasRunning hasVmstate : Bool)
        (env : RollbackEnv) (e : String),
      env.statusResp = .error e →
      rollbackExec name snapName wasRunning hasVmstate env
        = some ⟨[Request.statusCurrent],
                [("❌ Rollback Failed", strTake e 50)], true, none⟩) := by
  constructor
  · intro name snapName wasRunning hasVmstate env log hrun
    simp only [rollbackExec] at hrun
    split at hrun
    · cases hrun; exact ⟨_, rfl⟩
    · split at hrun
      · cases hrun; exact ⟨_, rfl⟩
      · split at hrun
        · split at hrun
          · cases hrun
          · split at hrun
            · split at hrun
              · cases hrun; exact ⟨_, rfl⟩
              · split at hrun
                · split at hrun
                  · cases hrun
                  · cases hrun; exact ⟨_, rfl⟩
                · cases hrun; exact ⟨_, rfl⟩
            · cases hrun; exact ⟨_, rfl⟩
        · cases hrun; exact ⟨_, rfl⟩
  · intro name snapName wasRunning hasVmstate env e hst
    simp only [rollbackExec, hst]

/-- Witness for claim C10: with a concrete raising status query the
branch ends as a failure having issued exactly the one status query. -/
theorem rollback_status_query_first_witness :
    rollbackExec "vm" "snap1" true false
        ⟨.error "Connection Error: refused", .ok none, [], .ok none, []⟩
      = some ⟨[Request.statusCurrent],
              [("❌ Rollback Failed", "Connection Error: refused")],
              true, none⟩ := by
  have h := rollback_status_query_first.2 "vm" "snap1" true false
    ⟨.error "Connection Error: refused", .ok none, [], .ok none, []⟩
    "Connection Error: refused" rfl
  rw [h]; decide

end PveManager
